import Mathlib

/-
Verification of the dsm local-network calling app.

The development shallowly embeds three source modules:
  * HTTPSignalingServer.handleHTTPRequest (the raw-socket HTTP transport),
  * WebRTCService (the call-session state machine in deviceInfo.ts),
  * ZeroconfService (discovery, self-publication and the device store).

External collaborators (JSON.parse, getUserMedia, the RTCPeerConnection
media collaborator, fetch, the native zeroconf module) are modelled as
oracle parameters: each call receives the outcome the collaborator would
produce, and the embedding reproduces the control flow of the source
around those outcomes.  Observable behaviour (callback invocations,
emitted wire messages, released media tracks) is captured in effect
lists.
-/

namespace DSM

/-! ### String helpers

The source manipulates JavaScript strings with split, indexOf,
substring, trim, startsWith, endsWith and slice.  They are embedded as
structural recursions over character lists so that every definition
reduces in the kernel. -/

/-- Characters removed by the JavaScript trim used on request bodies. -/
def isWsChar (c : Char) : Bool :=
  c = ' ' || c = '\r' || c = '\n' || c = '\t'

/-- Strip leading and trailing whitespace, as String.prototype.trim. -/
def trimChars (s : List Char) : List Char :=
  (((s.dropWhile isWsChar).reverse.dropWhile isWsChar).reverse)

/-- Everything after the first occurrence of the pattern, when present.
Mirrors indexOf followed by substring from index plus pattern length. -/
def dropThrough (pat : List Char) : List Char → Option (List Char)
  | [] => if pat.isPrefixOf ([] : List Char) then some [] else none
  | c :: t =>
      if pat.isPrefixOf (c :: t) then some ((c :: t).drop pat.length)
      else dropThrough pat t

/-- Characters before the first occurrence of the pattern (the whole
input when the pattern does not occur).  Used for the first request
line. -/
def takeUntil (pat : List Char) : List Char → List Char
  | [] => []
  | c :: t =>
      if pat.isPrefixOf (c :: t) then []
      else c :: takeUntil pat t

/-- Split on a single character, exactly as String.prototype.split with
a one-character separator: adjacent separators produce empty fields. -/
def splitChar (sep : Char) (s : List Char) : List (List Char) :=
  s.foldr
    (fun c acc =>
      if c = sep then [] :: acc
      else
        match acc with
        | [] => [[c]]
        | h :: t => (c :: h) :: t)
    [[]]

/-! ### JSON values

JSON.parse is an external collaborator.  Its possible results are
modelled by this value type; a parse oracle of type
String to Option Json stands for the runtime parser, none meaning the
body was not parseable (JSON.parse threw). -/

inductive Json where
  | jnull : Json
  | jbool : Bool → Json
  | jnum : Int → Json
  | jstr : String → Json
  | jarr : List Json → Json
  | jobj : List (String × Json) → Json

/-- Field lookup on a JSON object; none on non-objects, as reading a
property of a primitive yields undefined. -/
def jsonField (j : Json) (key : String) : Option Json :=
  match j with
  | Json.jobj fields => lookupField fields
  | _ => none
where
  lookupField : List (String × Json) → Option Json
    | [] => none
    | (k, v) :: t => if k = key then some v else lookupField t

/-! ### HTTP signaling server (HTTPSignalingServer.handleHTTPRequest)

handleConnection accumulates bytes and invokes handleHTTPRequest once
the blank-line delimiter has been observed; the request is handled as a
pure function from the request text, the client information and the
server port to a list of effects (the written response plus any callback
invocations). -/

structure ClientInfo where
  address : String
  port : Nat
deriving DecidableEq

/-- Observable actions of the server while handling one request. -/
inductive ServerEffect where
  | response (status : Nat) (statusText : String) (body : String)
  | onMessage (message : Json) (client : ClientInfo)
  | onConnectionRequest (fromDevice : String) (client : ClientInfo)

/-- requestData.split given CRLF, first element, then split on a space:
the request method, parts[0]. -/
def requestMethod (req : String) : String :=
  String.mk ((splitChar ' ' (takeUntil ['\r', '\n'] req.data)).getD 0 [])

/-- The request path, parts[1]; undefined (missing) is rendered as the
empty string, which matches no route, exactly as undefined compares
unequal to every route literal. -/
def requestPath (req : String) : String :=
  String.mk ((splitChar ' ' (takeUntil ['\r', '\n'] req.data)).getD 1 [])

/-- The body: substring from indexOf of the blank line plus four, then
trim.  When the delimiter is absent indexOf yields minus one, so the
source drops three characters. -/
def requestBody (req : String) : String :=
  match dropThrough ['\r', '\n', '\r', '\n'] req.data with
  | some rest => String.mk (trimChars rest)
  | none => String.mk (trimChars (req.data.drop 3))

def invalidJsonBody : String := "\x7b\"error\":\"Invalid JSON\"\x7d"

def notFoundBody : String := "\x7b\"error\":\"Endpoint not found\"\x7d"

def receivedBody : String := "\x7b\"status\":\"received\"\x7d"

/-- Health-probe payload of GET /signaling. -/
def healthBody (port : Nat) : String :=
  "\x7b\"status\":\"ok\",\"port\":" ++ toString port ++ "\x7d"

/-- Acknowledgment body naming the received kind; when the parsed value
has no string type field, JSON.stringify drops the undefined entry. -/
def signalingAckBody (j : Json) : String :=
  match jsonField j "type" with
  | some (Json.jstr t) => "\x7b\"status\":\"received\",\"type\":\"" ++ t ++ "\"\x7d"
  | _ => receivedBody

/-- data.fromDevice or the fallback: only a non-empty string field is
truthy. -/
def fromDeviceOf (j : Json) : String :=
  match jsonField j "fromDevice" with
  | some (Json.jstr s) => if s = "" then "Unknown" else s
  | _ => "Unknown"

/-- HTTPSignalingServer.handleHTTPRequest.  The parse argument is the
JSON.parse collaborator. -/
def handleHTTPRequest (parse : String → Option Json) (req : String)
    (client : ClientInfo) (port : Nat) : List ServerEffect :=
  let method := requestMethod req
  let path := requestPath req
  if method = "POST" ∧ path = "/signaling" then
    match parse (requestBody req) with
    | some j =>
        [ServerEffect.onMessage j client,
         ServerEffect.response 200 "OK" (signalingAckBody j)]
    | none => [ServerEffect.response 400 "Bad Request" invalidJsonBody]
  else if method = "GET" ∧ path = "/signaling" then
    [ServerEffect.response 200 "OK" (healthBody port)]
  else if method = "POST" ∧ path = "/call-request" then
    match parse (requestBody req) with
    | some j =>
        [ServerEffect.onConnectionRequest (fromDeviceOf j) client,
         ServerEffect.response 200 "OK" receivedBody]
    | none => [ServerEffect.response 400 "Bad Request" invalidJsonBody]
  else
    [ServerEffect.response 404 "Not Found" notFoundBody]

/-- Claim C6: a POST /signaling request whose body is not parseable as
JSON is answered with status 400 and the Invalid JSON body, and the
onMessage callback is never invoked. -/
theorem post_signaling_unparsable_is_400 (parse : String → Option Json)
    (req : String) (client : ClientInfo) (port : Nat)
    (hm : requestMethod req = "POST") (hp : requestPath req = "/signaling")
    (hb : parse (requestBody req) = none) :
    handleHTTPRequest parse req client port =
      [ServerEffect.response 400 "Bad Request" invalidJsonBody] ∧
    ∀ (j : Json) (c : ClientInfo),
      ServerEffect.onMessage j c ∉ handleHTTPRequest parse req client port := by
  have hroute : handleHTTPRequest parse req client port =
      [ServerEffect.response 400 "Bad Request" invalidJsonBody] := by
    simp [handleHTTPRequest, hm, hp, hb]
  refine ⟨hroute, ?_⟩
  intro j c
  rw [hroute]
  simp

/-- Witness for claim C6: a concrete unparsable POST /signaling request
gets the 400 response and no onMessage invocation. -/
theorem post_signaling_unparsable_is_400_witness :
    handleHTTPRequest (fun _ => none)
        "POST /signaling HTTP/1.1\r\nContent-Type: application/json\r\n\r\nnot json"
        ⟨"192.168.1.7", 40000⟩ 8888 =
      [ServerEffect.response 400 "Bad Request" invalidJsonBody] ∧
    ∀ (j : Json) (c : ClientInfo),
      ServerEffect.onMessage j c ∉ handleHTTPRequest (fun _ => none)
        "POST /signaling HTTP/1.1\r\nContent-Type: application/json\r\n\r\nnot json"
        ⟨"192.168.1.7", 40000⟩ 8888 :=
  post_signaling_unparsable_is_400 (fun _ => none)
    "POST /signaling HTTP/1.1\r\nContent-Type: application/json\r\n\r\nnot json"
    ⟨"192.168.1.7", 40000⟩ 8888 (by decide) (by decide) rfl

/-- Claim C7: a request whose method and path pair is outside the
routing table is answered with status 404 and the Endpoint not found
body, and neither callback is invoked. -/
theorem unknown_route_is_404 (parse : String → Option Json) (req : String)
    (client : ClientInfo) (port : Nat)
    (h : ¬((requestMethod req = "POST" ∧ requestPath req = "/signaling") ∨
           (requestMethod req = "GET" ∧ requestPath req = "/signaling") ∨
           (requestMethod req = "POST" ∧ requestPath req = "/call-request"))) :
    handleHTTPRequest parse req client port =
      [ServerEffect.response 404 "Not Found" notFoundBody] ∧
    (∀ (j : Json) (c : ClientInfo),
      ServerEffect.onMessage j c ∉ handleHTTPRequest parse req client port) ∧
    ∀ (d : String) (c : ClientInfo),
      ServerEffect.onConnectionRequest d c ∉ handleHTTPRequest parse req client port := by
  push_neg at h
  obtain ⟨h1, h2, h3⟩ := h
  have hroute : handleHTTPRequest parse req client port =
      [ServerEffect.response 404 "Not Found" notFoundBody] := by
    rw [handleHTTPRequest]
    rw [if_neg (by intro hc; exact absurd hc.2 (h1 hc.1))]
    rw [if_neg (by intro hc; exact absurd hc.2 (h2 hc.1))]
    rw [if_neg (by intro hc; exact absurd hc.2 (h3 hc.1))]
  refine ⟨hroute, ?_, ?_⟩ <;> intro x c <;> rw [hroute] <;> simp

/-- Witness for claim C7: a concrete DELETE request to an unknown path
gets the 404 response and invokes no callback. -/
theorem unknown_route_is_404_witness :
    handleHTTPRequest (fun _ => some Json.jnull)
        "DELETE /devices HTTP/1.1\r\n\r\n" ⟨"10.0.0.9", 51000⟩ 8888 =
      [ServerEffect.response 404 "Not Found" notFoundBody] ∧
    (∀ (j : Json) (c : ClientInfo),
      ServerEffect.onMessage j c ∉ handleHTTPRequest (fun _ => some Json.jnull)
        "DELETE /devices HTTP/1.1\r\n\r\n" ⟨"10.0.0.9", 51000⟩ 8888) ∧
    ∀ (d : String) (c : ClientInfo),
      ServerEffect.onConnectionRequest d c ∉ handleHTTPRequest (fun _ => some Json.jnull)
        "DELETE /devices HTTP/1.1\r\n\r\n" ⟨"10.0.0.9", 51000⟩ 8888 :=
  unknown_route_is_404 (fun _ => some Json.jnull)
    "DELETE /devices HTTP/1.1\r\n\r\n" ⟨"10.0.0.9", 51000⟩ 8888 (by decide)

/-! ### Discovered devices and TXT records

DiscoveredDevice from types/device.ts; the optional txt record is an
association list, the optional isSelf flag defaults to false
(undefined is falsy everywhere the source reads it). -/

structure DiscoveredDevice where
  host : String
  addresses : List String
  name : String
  fullName : String
  port : Nat
  txt : List (String × String) := []
  isSelf : Bool := false
deriving DecidableEq

/-- Property read on a TXT record object. -/
def getVal (m : List (String × String)) (key : String) : Option String :=
  match m with
  | [] => none
  | (k, v) :: t => if k = key then some v else getVal t key

/-- Object spread followed by a key assignment: the existing entry is
overwritten in place, a missing key is appended. -/
def setVal (m : List (String × String)) (key v : String) :
    List (String × String) :=
  match m with
  | [] => [(key, v)]
  | (k, w) :: t =>
      if k = key then (key, v) :: setVal t key v
      else (k, w) :: setVal t key v

theorem getVal_setVal_same (m : List (String × String)) (key v : String) :
    getVal (setVal m key v) key = some v := by
  induction m with
  | nil => simp [setVal, getVal]
  | cons p t ih =>
      obtain ⟨k, w⟩ := p
      by_cases hk : k = key <;> simp [setVal, getVal, hk, ih]

theorem getVal_setVal_other (m : List (String × String)) (key v k2 : String)
    (h : k2 ≠ key) : getVal (setVal m key v) k2 = getVal m k2 := by
  induction m with
  | nil => simp [setVal, getVal, Ne.symm h]
  | cons p t ih =>
      obtain ⟨k, w⟩ := p
      by_cases hk : k = key
      · subst hk
        simp [setVal, getVal, Ne.symm h, ih]
      · by_cases hk2 : k = k2
        · subst hk2
          simp [setVal, getVal, hk]
        · simp [setVal, getVal, hk, hk2, ih]

/-! ### Device store (stores/deviceStore.ts)

A Map keyed by the full service name; set replaces the value at an
existing key in place and appends a new key at the end. -/

def storePut (m : List (String × DiscoveredDevice)) (d : DiscoveredDevice) :
    List (String × DiscoveredDevice) :=
  match m with
  | [] => [(d.fullName, d)]
  | (k, v) :: t =>
      if k = d.fullName then (k, d) :: t
      else (k, v) :: storePut t d

def storeGet (m : List (String × DiscoveredDevice)) (key : String) :
    Option DiscoveredDevice :=
  match m with
  | [] => none
  | (k, v) :: t => if k = key then some v else storeGet t key

theorem storeGet_storePut_same (m : List (String × DiscoveredDevice))
    (d : DiscoveredDevice) : storeGet (storePut m d) d.fullName = some d := by
  induction m with
  | nil => simp [storePut, storeGet]
  | cons p t ih =>
      obtain ⟨k, v⟩ := p
      by_cases hk : k = d.fullName <;> simp [storePut, storeGet, hk, ih]

theorem storeGet_storePut_same_key (m : List (String × DiscoveredDevice))
    (d : DiscoveredDevice) (k : String) (hk : d.fullName = k) :
    storeGet (storePut m d) k = some d := hk ▸ storeGet_storePut_same m d

/-! ### Zeroconf service (the self-publication variant)

State of the ZeroconfService singleton that matters for the claims: the
set of identifiers of locally published services, the per-name
identifier groups used by unpublish, and the device store updated by the
resolved listener.  The native module and its event emitter are
collaborators; publish success is an oracle flag. -/

structure ZeroconfState where
  selfServiceIdentifiers : List String := []
  selfServiceIdentifierMap : List (String × List String) := []
  store : List (String × DiscoveredDevice) := []
deriving DecidableEq

/-- Set.add: append the element when absent. -/
def addId (l : List String) (x : String) : List String :=
  if x ∈ l then l else l ++ [x]

theorem mem_addId_self (l : List String) (x : String) : x ∈ addId l x := by
  by_cases h : x ∈ l <;> simp [addId, h]

theorem mem_addId_of_mem (l : List String) (x y : String) (h : x ∈ l) :
    x ∈ addId l y := by
  by_cases hy : y ∈ l <;> simp [addId, hy, h]

theorem mem_foldl_addId_left (ids : List String) (acc : List String)
    (x : String) (h : x ∈ acc) : x ∈ ids.foldl addId acc := by
  induction ids generalizing acc with
  | nil => simpa using h
  | cons y t ih => exact ih (addId acc y) (mem_addId_of_mem acc x y h)

theorem mem_foldl_addId_right (ids : List String) (acc : List String)
    (x : String) (h : x ∈ ids) : x ∈ ids.foldl addId acc := by
  induction ids generalizing acc with
  | nil => simp at h
  | cons y t ih =>
      rcases List.mem_cons.mp h with hx | hx
      · subst hx
        exact mem_foldl_addId_left t (addId acc x) x (mem_addId_self acc x)
      · exact ih (addId acc y) hx

/-- Leading-underscore normalization of the service type and protocol. -/
def normalizeUnder (s : String) : String :=
  match s.data with
  | '_' :: _ => s
  | _ => "_" ++ s

/-- Trailing-dot normalization of the domain. -/
def normalizeDomainDot (s : String) : String :=
  match s.data.getLast? with
  | some '.' => s
  | _ => s ++ "."

/-- Whether the computed full name carries a trailing dot. -/
def endsWithDot (s : String) : Bool :=
  match s.data.getLast? with
  | some '.' => true
  | _ => false

/-- slice of everything but the last character. -/
def dropLastChar (s : String) : String := String.mk s.data.dropLast

/-- The full service name computed by registerSelfService. -/
def computedFullName (name type protocol domain : String) : String :=
  name ++ "." ++ normalizeUnder type ++ "." ++ normalizeUnder protocol ++
    "." ++ normalizeDomainDot domain

/-- The fresh identifier set built by registerSelfService: the plain
name, the computed full name, and the full name without its trailing
dot when it has one. -/
def selfIdsFor (name type protocol domain : String) : List String :=
  let fullName := computedFullName name type protocol domain
  let i2 := addId (addId [] name) fullName
  if endsWithDot fullName then addId i2 (dropLastChar fullName) else i2

/-- ZeroconfService.registerSelfService. -/
def registerSelfService (zc : ZeroconfState)
    (name type protocol domain : String) : ZeroconfState :=
  let ids := selfIdsFor name type protocol domain
  { zc with
      selfServiceIdentifiers := ids.foldl addId zc.selfServiceIdentifiers,
      selfServiceIdentifierMap := (name, ids) :: zc.selfServiceIdentifierMap.filter
        (fun p => p.1 ≠ name) }

/-- ZeroconfService.annotateSelfDevice.  The source returns the service
unchanged when it is neither already tagged nor a registered self
identifier, and otherwise returns a copy tagged isSelf with the self TXT
entry forced to true; the early return is rendered as the negative
branch. -/
def annotateSelfDevice (selfIds : List String) (service : DiscoveredDevice) :
    DiscoveredDevice :=
  if (getVal service.txt "self" = some "true" ∨ service.isSelf = true) ∨
     (service.name ∈ selfIds ∨ service.fullName ∈ selfIds) then
    { service with isSelf := true, txt := setVal service.txt "self" "true" }
  else service

/-- The resolved event listener: annotate, then store, then notify the
onResolved callback with the annotated record (the record is returned
for the callback). -/
def resolvedEvent (zc : ZeroconfState) (service : DiscoveredDevice) :
    ZeroconfState × DiscoveredDevice :=
  let annotated := annotateSelfDevice zc.selfServiceIdentifiers service
  ({ zc with store := storePut zc.store annotated }, annotated)

/-- Result of ZeroconfService.publishService: the returned flag, the new
service state, and the TXT payload handed to the native module when the
publish went through. -/
structure PublishResult where
  ok : Bool
  zc : ZeroconfState
  advertised : Option (List (String × String)) := none
deriving DecidableEq

/-- ZeroconfService.publishService.  isInit is the isInitialized check;
nativeOk tells whether the native publishService call returned without
throwing (when it throws, registerSelfService is never reached). -/
def publishService (zc : ZeroconfState) (type protocol domain name : String)
    (_port : Nat) (txt : List (String × String)) (isInit nativeOk : Bool) :
    PublishResult :=
  if isInit then
    if nativeOk then
      { ok := true,
        zc := registerSelfService zc name type protocol domain,
        advertised := some (setVal txt "self" "true") }
    else { ok := false, zc := zc }
  else { ok := false, zc := zc }

theorem mem_selfIdsFor_name (name type protocol domain : String) :
    name ∈ selfIdsFor name type protocol domain := by
  have h1 : name ∈ addId (addId [] name)
      (computedFullName name type protocol domain) :=
    mem_addId_of_mem _ _ _ (mem_addId_self [] name)
  by_cases hd : endsWithDot (computedFullName name type protocol domain) <;>
    simp only [selfIdsFor, hd, if_true, if_false] <;>
    first
      | exact mem_addId_of_mem _ _ _ h1
      | exact h1

theorem mem_selfIdsFor_fullName (name type protocol domain : String) :
    computedFullName name type protocol domain ∈
      selfIdsFor name type protocol domain := by
  have h1 : computedFullName name type protocol domain ∈
      addId (addId [] name) (computedFullName name type protocol domain) :=
    mem_addId_self _ _
  by_cases hd : endsWithDot (computedFullName name type protocol domain) <;>
    simp only [selfIdsFor, hd, if_true, if_false] <;>
    first
      | exact mem_addId_of_mem _ _ _ h1
      | exact h1

theorem name_mem_publishService (zc : ZeroconfState)
    (type protocol domain name : String) (port : Nat)
    (txt : List (String × String)) :
    name ∈ (publishService zc type protocol domain name port txt true
      true).zc.selfServiceIdentifiers := by
  simp only [publishService, registerSelfService, if_true]
  exact mem_foldl_addId_right _ _ _ (mem_selfIdsFor_name name type protocol domain)

theorem fullName_mem_publishService (zc : ZeroconfState)
    (type protocol domain name : String) (port : Nat)
    (txt : List (String × String)) :
    computedFullName name type protocol domain ∈
      (publishService zc type protocol domain name port txt true
        true).zc.selfServiceIdentifiers := by
  simp only [publishService, registerSelfService, if_true]
  exact mem_foldl_addId_right _ _ _
    (mem_selfIdsFor_fullName name type protocol domain)

/-- A resolution handled while the record name is a registered self
identifier stores the record tagged isSelf. -/
theorem resolvedEvent_marks (zc : ZeroconfState) (service : DiscoveredDevice)
    (hmem : service.name ∈ zc.selfServiceIdentifiers) :
    (storeGet (resolvedEvent zc service).1.store service.fullName).map
      DiscoveredDevice.isSelf = some true := by
  have hmark : annotateSelfDevice zc.selfServiceIdentifiers service =
      { service with isSelf := true,
                     txt := setVal service.txt "self" "true" } := by
    rw [annotateSelfDevice, if_pos (Or.inr (Or.inl hmem))]
  simp only [resolvedEvent]
  rw [hmark, storeGet_storePut_same_key _ _ _ rfl]
  rfl

/-- Claim C10: a successful publishService advertises the input TXT set
with the self entry forced to true (other keys untouched), records the
name and the computed full name as self identifiers, and later
resolutions of that service are annotated as self. -/
theorem publishService_self_tagging (zc : ZeroconfState)
    (type protocol domain name : String) (port : Nat)
    (txt : List (String × String)) :
    (publishService zc type protocol domain name port txt true true).ok = true ∧
    (publishService zc type protocol domain name port txt true true).advertised =
      some (setVal txt "self" "true") ∧
    getVal (setVal txt "self" "true") "self" = some "true" ∧
    (∀ k : String, k ≠ "self" →
      getVal (setVal txt "self" "true") k = getVal txt k) ∧
    name ∈ (publishService zc type protocol domain name port txt true
      true).zc.selfServiceIdentifiers ∧
    computedFullName name type protocol domain ∈
      (publishService zc type protocol domain name port txt true
        true).zc.selfServiceIdentifiers ∧
    ∀ service : DiscoveredDevice,
      (service.name = name ∨
       service.fullName = computedFullName name type protocol domain) →
      (annotateSelfDevice
        (publishService zc type protocol domain name port txt true
          true).zc.selfServiceIdentifiers service).isSelf = true := by
  have hnameIds := name_mem_publishService zc type protocol domain name port txt
  have hfullIds := fullName_mem_publishService zc type protocol domain name
    port txt
  refine ⟨rfl, rfl, getVal_setVal_same txt "self" "true",
    fun k hk => getVal_setVal_other txt "self" "true" k hk,
    hnameIds, hfullIds, ?_⟩
  intro service hsv
  have hmem : service.name ∈ (publishService zc type protocol domain name port
      txt true true).zc.selfServiceIdentifiers ∨
      service.fullName ∈ (publishService zc type protocol domain name port txt
        true true).zc.selfServiceIdentifiers := by
    rcases hsv with h | h
    · exact Or.inl (h ▸ hnameIds)
    · exact Or.inr (h ▸ hfullIds)
  rw [annotateSelfDevice, if_pos (Or.inr hmem)]

/-- Witness for claim C10 at a concrete publish of My Phone with one
extra TXT attribute. -/
theorem publishService_self_tagging_witness :
    (publishService {} "http" "tcp" "local." "My Phone" 8080
      [("platform", "android")] true true).advertised =
      some (setVal [("platform", "android")] "self" "true") ∧
    getVal (setVal [("platform", "android")] "self" "true") "self" =
      some "true" ∧
    getVal (setVal [("platform", "android")] "self" "true") "platform" =
      getVal [("platform", "android")] "platform" ∧
    "My Phone" ∈ (publishService {} "http" "tcp" "local." "My Phone" 8080
      [("platform", "android")] true true).zc.selfServiceIdentifiers ∧
    (annotateSelfDevice
      (publishService {} "http" "tcp" "local." "My Phone" 8080
        [("platform", "android")] true true).zc.selfServiceIdentifiers
      { host := "myphone.local.", addresses := ["192.168.1.4"],
        name := "My Phone", fullName := "My Phone._http._tcp.local.",
        port := 8080 }).isSelf = true := by
  have h := publishService_self_tagging {} "http" "tcp" "local." "My Phone"
    8080 [("platform", "android")]
  exact ⟨h.2.1, h.2.2.1, h.2.2.2.1 "platform" (by decide), h.2.2.2.2.1,
    h.2.2.2.2.2.2
      { host := "myphone.local.", addresses := ["192.168.1.4"],
        name := "My Phone", fullName := "My Phone._http._tcp.local.",
        port := 8080 } (Or.inl rfl)⟩

/-- Claim C9: self tagging is retroactive-safe.  A record resolved and
stored while its identifier was not yet registered as self is stored
untagged; after the identifier is registered by a publish, the next
annotate pass over a resolution of the same record stores it tagged
isSelf. -/
theorem annotate_retroactive (zc : ZeroconfState) (service : DiscoveredDevice)
    (type protocol domain : String) (port : Nat)
    (txt : List (String × String))
    (h1 : service.isSelf = false)
    (h2 : ¬getVal service.txt "self" = some "true")
    (h3 : service.name ∉ zc.selfServiceIdentifiers)
    (h4 : service.fullName ∉ zc.selfServiceIdentifiers) :
    storeGet (resolvedEvent zc service).1.store service.fullName =
      some service ∧
    (storeGet (resolvedEvent
        (publishService (resolvedEvent zc service).1 type protocol domain
          service.name port txt true true).zc
        service).1.store service.fullName).map DiscoveredDevice.isSelf =
      some true := by
  have hplain : annotateSelfDevice zc.selfServiceIdentifiers service =
      service := by
    rw [annotateSelfDevice, if_neg]
    push_neg
    exact ⟨⟨h2, by simp [h1]⟩, h3, h4⟩
  constructor
  · simp only [resolvedEvent]
    rw [hplain]
    exact storeGet_storePut_same zc.store service
  · exact resolvedEvent_marks _ service
      (name_mem_publishService (resolvedEvent zc service).1 type protocol
        domain service.name port txt)

/-- Witness for claim C9: a concrete record stored before its name is
published as self is untagged first and tagged after the publish and
re-resolution. -/
theorem annotate_retroactive_witness :
    storeGet (resolvedEvent {}
      { host := "myphone.local.", addresses := ["192.168.1.4"],
        name := "My Phone", fullName := "My Phone._http._tcp.local.",
        port := 8080 }).1.store "My Phone._http._tcp.local." =
      some { host := "myphone.local.", addresses := ["192.168.1.4"],
             name := "My Phone", fullName := "My Phone._http._tcp.local.",
             port := 8080 } ∧
    (storeGet (resolvedEvent
        (publishService (resolvedEvent {}
          { host := "myphone.local.", addresses := ["192.168.1.4"],
            name := "My Phone", fullName := "My Phone._http._tcp.local.",
            port := 8080 }).1 "http" "tcp" "local." "My Phone" 8080 [] true
          true).zc
        { host := "myphone.local.", addresses := ["192.168.1.4"],
          name := "My Phone", fullName := "My Phone._http._tcp.local.",
          port := 8080 }).1.store
      "My Phone._http._tcp.local.").map DiscoveredDevice.isSelf = some true :=
  annotate_retroactive {}
    { host := "myphone.local.", addresses := ["192.168.1.4"],
      name := "My Phone", fullName := "My Phone._http._tcp.local.",
      port := 8080 } "http" "tcp" "local." 8080 []
    rfl (by decide) (by decide) (by decide)

/-! ### WebRTC call-session state machine (WebRTCService)

Fields of the service that the claims concern: the peer connection
(modelled by whether it is non-null), the local stream, the call state,
the initiator flag and the remote device.  getUserMedia, the peer
connection collaborator and fetch are oracles: each operation takes the
outcome the collaborator produces on that invocation.  Methods return
the new state, the list of observable effects in order, and the error
thrown to the caller when the method rejects before its own try block. -/

structure MediaStream where
  tracks : List Nat
deriving DecidableEq

/-- Body shape of signaling messages sent and received over HTTP POST
(the timestamp attached at send time carries no behaviour and is
omitted). -/
structure WireMessage where
  type : String
  sdp : Option String := none
  candidate : Option String := none
deriving DecidableEq

/-- The CallState union of WebRTCService. -/
inductive CallState where
  | idle
  | calling
  | ringing
  | connected
  | ended
deriving DecidableEq

structure WebRTCState where
  peerConnection : Bool := false
  localStream : Option MediaStream := none
  callState : CallState := CallState.idle
  isInitiator : Bool := false
  remoteDevice : Option DiscoveredDevice := none
deriving DecidableEq

/-- The freshly constructed service. -/
def initialWebRTCState : WebRTCState := {}

/-- Observable actions of the service: callback invocations, outbound
wire messages, and effects on the media collaborator. -/
inductive CallEffect where
  | stateChange (s : CallState)
  | errorCb (msg : String)
  | localStreamCb (m : MediaStream)
  | posted (m : WireMessage)
  | sendFailed
  | trackStopped (id : Nat)
  | pcClosed
  | appliedRemoteDesc (kind : String) (sdp : Option String)
  | addedCandidate (c : String)
deriving DecidableEq

/-- Result of one service method: new state, effects, and the error the
method throws to its caller (none when it returns normally). -/
structure StepResult where
  state : WebRTCState
  out : List CallEffect
  err : Option String := none
deriving DecidableEq

/-- WebRTCService.getLocalStream: the cached stream when present,
otherwise the getUserMedia outcome; a getUserMedia failure is rethrown
as the camera/microphone error. -/
def getLocalStream (s : WebRTCState) (gum : Option MediaStream) :
    Except String (WebRTCState × List CallEffect × MediaStream) :=
  match s.localStream with
  | some st => Except.ok (s, [], st)
  | none =>
      match gum with
      | some stream =>
          Except.ok ({ s with localStream := some stream },
            [CallEffect.localStreamCb stream], stream)
      | none => Except.error "Failed to access camera/microphone"

/-- response.ok of the fetch outcome; none is a network-level failure
(connection refused or timeout). -/
def fetchOk (r : Option Nat) : Bool :=
  match r with
  | some code => 200 ≤ code && code < 300
  | none => false

/-- WebRTCService.sendSignalingMessage: without a remote device it only
warns; otherwise it posts the serialized message and, on any delivery
failure, logs inside its own catch.  It never changes state and never
throws to its caller. -/
def sendSignalingMessage (s : WebRTCState) (m : WireMessage)
    (fetchResult : Option Nat) : WebRTCState × List CallEffect :=
  match s.remoteDevice with
  | none => (s, [])
  | some _ =>
      (s, [CallEffect.posted m] ++
        (if fetchOk fetchResult then [] else [CallEffect.sendFailed]))

/-- WebRTCService.startCall.  Throws when the state is not idle; then
records the remote device, the initiator role and the calling state;
the try block acquires media, creates the peer connection, probes the
peer (failures of the probe are swallowed), creates the offer and posts
it; the catch of a media failure sets the state back to idle and
reports through onError. -/
def startCall (s : WebRTCState) (device : DiscoveredDevice)
    (gum : Option MediaStream) (offerSdp : String)
    (fetchResult : Option Nat) : StepResult :=
  if s.callState ≠ CallState.idle then
    { state := s, out := [], err := some "Call already in progress" }
  else
    let s1 : WebRTCState :=
      { s with remoteDevice := some device, isInitiator := true,
               callState := CallState.calling }
    match getLocalStream s1 gum with
    | Except.error e =>
        { state := { s1 with callState := CallState.idle },
          out := [CallEffect.stateChange CallState.calling,
                  CallEffect.stateChange CallState.idle,
                  CallEffect.errorCb e] }
    | Except.ok (s2, o2, _) =>
        let s3 : WebRTCState := { s2 with peerConnection := true }
        let r4 := sendSignalingMessage s3
          { type := "offer", sdp := some offerSdp } fetchResult
        { state := r4.1,
          out := [CallEffect.stateChange CallState.calling] ++ o2 ++ r4.2 }

/-- WebRTCService.acceptCall.  Throws when not ringing; acquires media,
adds tracks when the peer connection exists, creates and posts the
answer and moves to connected; its catch reports through onError without
touching the state (a null peer connection faults inside the try). -/
def acceptCall (s : WebRTCState) (gum : Option MediaStream)
    (answerSdp : String) (fetchResult : Option Nat) : StepResult :=
  if s.callState ≠ CallState.ringing then
    { state := s, out := [], err := some "No incoming call to accept" }
  else
    match getLocalStream s gum with
    | Except.error e => { state := s, out := [CallEffect.errorCb e] }
    | Except.ok (s2, o2, _) =>
        if s2.peerConnection then
          let r3 := sendSignalingMessage s2
            { type := "answer", sdp := some answerSdp } fetchResult
          { state := { r3.1 with callState := CallState.connected },
            out := o2 ++ r3.2 ++ [CallEffect.stateChange CallState.connected] }
        else
          { state := s2,
            out := o2 ++ [CallEffect.errorCb "Failed to accept call"] }

/-- WebRTCService.endCall: stop every track of the local stream when one
is held, drop it, close the peer connection when one exists, clear the
poll interval, set the state to idle and clear device and role. -/
def endCall (s : WebRTCState) : WebRTCState × List CallEffect :=
  let o1 := match s.localStream with
    | some st => st.tracks.map CallEffect.trackStopped
    | none => []
  let o2 := if s.peerConnection then [CallEffect.pcClosed] else []
  ({ peerConnection := false, localStream := none,
     callState := CallState.idle, isInitiator := false,
     remoteDevice := none },
   o1 ++ o2 ++ [CallEffect.stateChange CallState.idle])

/-- WebRTCService.rejectCall: post the reject message, then endCall. -/
def rejectCall (s : WebRTCState) (fetchResult : Option Nat) :
    WebRTCState × List CallEffect :=
  let r1 := sendSignalingMessage s { type := "reject" } fetchResult
  let r2 := endCall r1.1
  (r2.1, r1.2 ++ r2.2)

/-- WebRTCService.processSignalingMessage.  srdOk and aicOk are the
outcomes of setRemoteDescription and addIceCandidate on the media
collaborator; the fallback onError strings stand for the rethrown
collaborator errors.  An applied effect is recorded when the
collaborator accepts the description or candidate. -/
def processSignalingMessage (s : WebRTCState) (m : WireMessage)
    (srdOk aicOk : Bool) : WebRTCState × List CallEffect :=
  if s.peerConnection = false then (s, [])
  else if m.type = "offer" then
    if s.isInitiator = false then
      if srdOk then
        ({ s with callState := CallState.ringing },
         [CallEffect.appliedRemoteDesc "offer" m.sdp,
          CallEffect.stateChange CallState.ringing])
      else (s, [CallEffect.errorCb "Failed to process offer"])
    else (s, [])
  else if m.type = "answer" then
    if s.isInitiator then
      if srdOk then (s, [CallEffect.appliedRemoteDesc "answer" m.sdp])
      else (s, [CallEffect.errorCb "Failed to process answer"])
    else (s, [])
  else if m.type = "ice-candidate" then
    match m.candidate with
    | some c => if aicOk then (s, [CallEffect.addedCandidate c]) else (s, [])
    | none => (s, [])
  else if m.type = "reject" then
    let r := endCall s
    (r.1, r.2 ++ [CallEffect.errorCb "Call was rejected"])
  else (s, [])

/-- The placeholder device built from the socket client information for
an incoming call. -/
def deviceFromClient (ci : ClientInfo) : DiscoveredDevice :=
  { host := ci.address ++ ".local.",
    addresses := [ci.address],
    name := "Device-" ++ ci.address,
    fullName := "Device-" ++ ci.address ++ ".local._http._tcp.",
    port := 8888 }

/-- WebRTCService.handleIncomingSignalingMessage.  With no peer
connection, an offer creates one: the client-derived device is stored
only when none is present, background media acquisition is launched
(its failure is only logged; the serialized outcome is gumBg), the state
becomes ringing, and the message then goes through
processSignalingMessage.  Any other kind without a peer connection is
dropped with a warning. -/
def handleIncomingSignalingMessage (s : WebRTCState) (m : WireMessage)
    (clientInfo : Option ClientInfo) (gumBg : Option MediaStream)
    (srdOk aicOk : Bool) : WebRTCState × List CallEffect :=
  if s.peerConnection then processSignalingMessage s m srdOk aicOk
  else if m.type = "offer" then
    let s1 := match clientInfo, s.remoteDevice with
      | some ci, none => { s with remoteDevice := some (deviceFromClient ci) }
      | _, _ => s
    let s2 : WebRTCState := { s1 with peerConnection := true }
    let bg := match s2.localStream, gumBg with
      | none, some stream =>
          ({ s2 with localStream := some stream },
           [CallEffect.localStreamCb stream])
      | _, _ => (s2, ([] : List CallEffect))
    let s4 : WebRTCState := { bg.1 with callState := CallState.ringing }
    let r5 := processSignalingMessage s4 m srdOk aicOk
    (r5.1, bg.2 ++ [CallEffect.stateChange CallState.ringing] ++ r5.2)
  else (s, [])

/-- Track identifiers released by a list of effects. -/
def releasedTracks (l : List CallEffect) : List Nat :=
  l.filterMap fun e =>
    match e with
    | CallEffect.trackStopped i => some i
    | _ => none

/-- Whether a list of effects reports any error callback. -/
def hasErrorEffect (l : List CallEffect) : Bool :=
  l.any fun e =>
    match e with
    | CallEffect.errorCb _ => true
    | _ => false

theorem releasedTracks_append (a b : List CallEffect) :
    releasedTracks (a ++ b) = releasedTracks a ++ releasedTracks b := by
  simp [releasedTracks]

theorem releasedTracks_map_trackStopped (ts : List Nat) :
    releasedTracks (ts.map CallEffect.trackStopped) = ts := by
  induction ts with
  | nil => rfl
  | cons i t ih => simp [releasedTracks] at ih ⊢; exact ih

theorem hasErrorEffect_append (a b : List CallEffect) :
    hasErrorEffect (a ++ b) = (hasErrorEffect a || hasErrorEffect b) := by
  simp [hasErrorEffect]

theorem hasErrorEffect_map_trackStopped (ts : List Nat) :
    hasErrorEffect (ts.map CallEffect.trackStopped) = false := by
  induction ts with
  | nil => rfl
  | cons i t _ => simp [hasErrorEffect]

/-- A discovered peer used in the concrete scenarios. -/
def deviceB : DiscoveredDevice :=
  { host := "pixel.local.", addresses := ["192.168.1.7"], name := "Pixel 7",
    fullName := "Pixel 7._http._tcp.local.", port := 8080 }

/-- A record of this device as it reappears in discovery results: its
TXT set carries self and it is tagged by the annotate pass. -/
def selfDevice : DiscoveredDevice :=
  { host := "myphone.local.", addresses := ["127.0.0.1"], name := "My Phone",
    fullName := "My Phone._http._tcp.local.", port := 8080,
    txt := [("self", "true")], isSelf := true }

/-- A service snapshot in a live call, used in concrete scenarios. -/
def connectedSnapshot : WebRTCState :=
  { peerConnection := true, localStream := some ⟨[0, 1]⟩,
    callState := CallState.connected, isInitiator := true,
    remoteDevice := some deviceB }

/-- Claim C1: on a session whose state is not idle, startCall throws the
call-in-progress error and leaves state, role and remote peer exactly as
they were. -/
theorem startCall_nonIdle_rejected (s : WebRTCState) (d : DiscoveredDevice)
    (gum : Option MediaStream) (offerSdp : String) (fetchResult : Option Nat)
    (h : s.callState ≠ CallState.idle) :
    startCall s d gum offerSdp fetchResult =
      { state := s, out := [], err := some "Call already in progress" } := by
  rw [startCall, if_pos h]

/-- Witness for claim C1: startCall on the connected snapshot fails with
the call-in-progress error and the snapshot is untouched. -/
theorem startCall_nonIdle_rejected_witness :
    startCall connectedSnapshot deviceB (some ⟨[7]⟩) "sdpX" (some 200) =
      { state := connectedSnapshot, out := [],
        err := some "Call already in progress" } :=
  startCall_nonIdle_rejected connectedSnapshot deviceB (some ⟨[7]⟩) "sdpX"
    (some 200) (by decide)

/-- Counterexample to claim C2 as stated: when media acquisition fails
during startCall, the session is set back to idle, not to ended. -/
theorem startCall_mediaFail_not_ended :
    (startCall initialWebRTCState deviceB none "sdpA" none).state.callState =
      CallState.idle ∧
    (startCall initialWebRTCState deviceB none "sdpA"
      none).state.callState ≠ CallState.ended := by decide

/-- Claim C2 as amended: when local media acquisition fails during
startCall, the session transitions back to idle (the catch resets only
the call state, so the freshly set role and remote device survive) and
the media access error is reported to the caller through onError; the
method itself resolves without throwing. -/
theorem startCall_mediaFail_reports (s : WebRTCState) (d : DiscoveredDevice)
    (offerSdp : String) (fetchResult : Option Nat)
    (h1 : s.callState = CallState.idle) (h2 : s.localStream = none) :
    startCall s d none offerSdp fetchResult =
      { state := { s with remoteDevice := some d, isInitiator := true, callState := CallState.idle },
        out := [CallEffect.stateChange CallState.calling,
                CallEffect.stateChange CallState.idle,
                CallEffect.errorCb "Failed to access camera/microphone"],
        err := none } := by
  rw [startCall, if_neg (by simp [h1])]
  simp [getLocalStream, h2]

/-- Witness for the amended claim C2 at the fresh service and a concrete
peer. -/
theorem startCall_mediaFail_reports_witness :
    startCall initialWebRTCState deviceB none "sdpA" (some 200) =
      { state := { initialWebRTCState with remoteDevice := some deviceB, isInitiator := true, callState := CallState.idle },
        out := [CallEffect.stateChange CallState.calling,
                CallEffect.stateChange CallState.idle,
                CallEffect.errorCb "Failed to access camera/microphone"],
        err := none } :=
  startCall_mediaFail_reports initialWebRTCState deviceB "sdpA" (some 200)
    rfl rfl

/-- Counterexample to claim C3 as stated: endCall from connected leaves
the session in idle, not in ended. -/
theorem endCall_not_ended :
    (endCall connectedSnapshot).1.callState = CallState.idle ∧
    (endCall connectedSnapshot).1.callState ≠ CallState.ended := by decide

/-- Claim C3 as amended: from connected, two successive endCall
invocations each leave the session in idle (not ended), neither throws
nor reports an error, and the tracks of the local media handle are
stopped exactly once, by the first invocation. -/
theorem endCall_idempotent_release (s : WebRTCState) (st : MediaStream)
    (_h1 : s.callState = CallState.connected) (h2 : s.localStream = some st) :
    (endCall s).1.callState = CallState.idle ∧
    (endCall (endCall s).1).1.callState = CallState.idle ∧
    releasedTracks (endCall s).2 = st.tracks ∧
    releasedTracks (endCall (endCall s).1).2 = [] ∧
    hasErrorEffect (endCall s).2 = false ∧
    hasErrorEffect (endCall (endCall s).1).2 = false := by
  have hstate : (endCall s).1 = initialWebRTCState := rfl
  have hout : (endCall s).2 =
      st.tracks.map CallEffect.trackStopped ++
        (if s.peerConnection then [CallEffect.pcClosed] else []) ++
        [CallEffect.stateChange CallState.idle] := by
    simp only [endCall, h2]
  have hsecond : endCall (endCall s).1 =
      (initialWebRTCState, [CallEffect.stateChange CallState.idle]) := by
    rw [hstate]
    rfl
  refine ⟨by rw [hstate]; rfl, by rw [hsecond]; rfl, ?_, by rw [hsecond]; rfl,
    ?_, by rw [hsecond]; rfl⟩
  · rw [hout, releasedTracks_append, releasedTracks_append,
      releasedTracks_map_trackStopped]
    by_cases hpc : s.peerConnection <;> simp [hpc, releasedTracks]
  · rw [hout, hasErrorEffect_append, hasErrorEffect_append,
      hasErrorEffect_map_trackStopped]
    by_cases hpc : s.peerConnection <;> simp [hpc, hasErrorEffect]

/-- Witness for the amended claim C3 at the connected snapshot with a
two-track local stream. -/
theorem endCall_idempotent_release_witness :
    (endCall connectedSnapshot).1.callState = CallState.idle ∧
    (endCall (endCall connectedSnapshot).1).1.callState = CallState.idle ∧
    releasedTracks (endCall connectedSnapshot).2 = [0, 1] ∧
    releasedTracks (endCall (endCall connectedSnapshot).1).2 = [] ∧
    hasErrorEffect (endCall connectedSnapshot).2 = false ∧
    hasErrorEffect (endCall (endCall connectedSnapshot).1).2 = false :=
  endCall_idempotent_release connectedSnapshot ⟨[0, 1]⟩ rfl rfl

/-- Claim C4, failing trace: a startCall whose media acquisition fails
leaves the initiator flag and remote device behind while returning to
idle; an inbound offer then creates a ringing session still flagged as
initiator, whose offer is never applied to the media collaborator, and
acceptCall on it emits an answer and reaches connected — an
initiator-flagged session emits an answer, against the role invariant. -/
theorem initiator_emits_answer_after_failed_startCall :
    (startCall initialWebRTCState deviceB none "sdpA" none).state.isInitiator =
      true ∧
    (handleIncomingSignalingMessage
        (startCall initialWebRTCState deviceB none "sdpA" none).state
        { type := "offer", sdp := some "remoteOffer" }
        (some ⟨"192.168.1.7", 43210⟩) (some ⟨[0]⟩) true true).1.isInitiator =
      true ∧
    (handleIncomingSignalingMessage
        (startCall initialWebRTCState deviceB none "sdpA" none).state
        { type := "offer", sdp := some "remoteOffer" }
        (some ⟨"192.168.1.7", 43210⟩) (some ⟨[0]⟩) true true).1.callState =
      CallState.ringing ∧
    ((handleIncomingSignalingMessage
        (startCall initialWebRTCState deviceB none "sdpA" none).state
        { type := "offer", sdp := some "remoteOffer" }
        (some ⟨"192.168.1.7", 43210⟩) (some ⟨[0]⟩) true true).2.all fun e =>
      match e with
      | CallEffect.appliedRemoteDesc _ _ => false
      | _ => true) = true ∧
    CallEffect.posted { type := "answer", sdp := some "localAnswer" } ∈
      (acceptCall
        (handleIncomingSignalingMessage
          (startCall initialWebRTCState deviceB none "sdpA" none).state
          { type := "offer", sdp := some "remoteOffer" }
          (some ⟨"192.168.1.7", 43210⟩) (some ⟨[0]⟩) true true).1
        (some ⟨[0]⟩) "localAnswer" (some 200)).out ∧
    (acceptCall
        (handleIncomingSignalingMessage
          (startCall initialWebRTCState deviceB none "sdpA" none).state
          { type := "offer", sdp := some "remoteOffer" }
          (some ⟨"192.168.1.7", 43210⟩) (some ⟨[0]⟩) true true).1
        (some ⟨[0]⟩) "localAnswer" (some 200)).state.callState =
      CallState.connected ∧
    (acceptCall
        (handleIncomingSignalingMessage
          (startCall initialWebRTCState deviceB none "sdpA" none).state
          { type := "offer", sdp := some "remoteOffer" }
          (some ⟨"192.168.1.7", 43210⟩) (some ⟨[0]⟩) true true).1
        (some ⟨[0]⟩) "localAnswer" (some 200)).err = none := by decide

/-- Counterexample to claim C5 as stated: a peer record tagged as self,
whose name the publish pass registered among the self identifiers, is
not rejected by startCall — the call proceeds, the state changes to
calling and an offer is emitted. -/
theorem startCall_self_not_rejected :
    selfDevice.isSelf = true ∧
    selfDevice.name ∈ (publishService {} "http" "tcp" "local." "My Phone" 8080
      [] true true).zc.selfServiceIdentifiers ∧
    (startCall initialWebRTCState selfDevice (some ⟨[0]⟩) "sdpSelf"
      (some 200)).err = none ∧
    (startCall initialWebRTCState selfDevice (some ⟨[0]⟩) "sdpSelf"
      (some 200)).state.callState = CallState.calling ∧
    (startCall initialWebRTCState selfDevice (some ⟨[0]⟩) "sdpSelf"
      (some 200)).state ≠ initialWebRTCState ∧
    CallEffect.posted { type := "offer", sdp := some "sdpSelf" } ∈
      (startCall initialWebRTCState selfDevice (some ⟨[0]⟩) "sdpSelf"
        (some 200)).out := by decide

/-- Claim C5 as amended: the state machine applies no self-peer guard.
startCall treats every device alike, a self-tagged record included: from
idle it reaches calling with the device stored and the initiator role
set; acceptCall likewise moves any ringing session with a live peer
connection to connected, whoever the remote peer is.  Prevention of
self-calls lives only in the UI layer, which hides the call action for
self-tagged records. -/
theorem no_self_guard_in_state_machine :
    (∀ (s : WebRTCState) (d : DiscoveredDevice) (stream : MediaStream)
       (offerSdp : String) (fetchResult : Option Nat),
       s.callState = CallState.idle →
       (startCall s d (some stream) offerSdp fetchResult).err = none ∧
       (startCall s d (some stream) offerSdp fetchResult).state.callState =
         CallState.calling ∧
       (startCall s d (some stream) offerSdp fetchResult).state.remoteDevice =
         some d ∧
       (startCall s d (some stream) offerSdp fetchResult).state.isInitiator =
         true) ∧
    ∀ (s : WebRTCState) (stream : MediaStream) (answerSdp : String)
      (fetchResult : Option Nat),
      s.callState = CallState.ringing → s.peerConnection = true →
      (acceptCall s (some stream) answerSdp fetchResult).err = none ∧
      (acceptCall s (some stream) answerSdp fetchResult).state.callState =
        CallState.connected := by
  constructor
  · intro s d stream offerSdp fetchResult h
    rw [startCall, if_neg (by simp [h])]
    cases hls : s.localStream <;>
      cases hrd : s.remoteDevice <;>
        simp [getLocalStream, hls, sendSignalingMessage]
  · intro s stream answerSdp fetchResult h hpc
    rw [acceptCall, if_neg (by simp [h])]
    cases hls : s.localStream <;>
      cases hrd : s.remoteDevice <;>
        simp [getLocalStream, hls, hpc, hrd, sendSignalingMessage]

/-- Witness for the amended claim C5: startCall accepts the self-tagged
record from idle, and acceptCall connects a ringing session whose remote
peer is the self-tagged record. -/
theorem no_self_guard_in_state_machine_witness :
    ((startCall initialWebRTCState selfDevice (some ⟨[0]⟩) "sdpSelf"
      (some 200)).err = none ∧
     (startCall initialWebRTCState selfDevice (some ⟨[0]⟩) "sdpSelf"
       (some 200)).state.callState = CallState.calling ∧
     (startCall initialWebRTCState selfDevice (some ⟨[0]⟩) "sdpSelf"
       (some 200)).state.remoteDevice = some selfDevice ∧
     (startCall initialWebRTCState selfDevice (some ⟨[0]⟩) "sdpSelf"
       (some 200)).state.isInitiator = true) ∧
    (acceptCall
      { peerConnection := true, localStream := some ⟨[0]⟩,
        callState := CallState.ringing, remoteDevice := some selfDevice }
      (some ⟨[0]⟩) "answerSelf" (some 200)).err = none ∧
    (acceptCall
      { peerConnection := true, localStream := some ⟨[0]⟩,
        callState := CallState.ringing, remoteDevice := some selfDevice }
      (some ⟨[0]⟩) "answerSelf" (some 200)).state.callState =
      CallState.connected :=
  ⟨no_self_guard_in_state_machine.1 initialWebRTCState selfDevice ⟨[0]⟩
    "sdpSelf" (some 200) rfl,
   no_self_guard_in_state_machine.2
    { peerConnection := true, localStream := some ⟨[0]⟩,
      callState := CallState.ringing, remoteDevice := some selfDevice }
    ⟨[0]⟩ "answerSelf" (some 200) rfl rfl⟩

/-- Claim C8: sendSignalingMessage never raises to its caller and never
changes the session state, whatever the fetch outcome (connection
refused, timeout or a non-2xx status); consequently a startCall whose
offer fails to reach the peer still resolves without error with the
session left in calling. -/
theorem send_failure_nonfatal (s : WebRTCState) (d : DiscoveredDevice)
    (stream : MediaStream) (offerSdp : String) (fetchResult : Option Nat)
    (h : s.callState = CallState.idle) :
    (startCall s d (some stream) offerSdp fetchResult).err = none ∧
    (startCall s d (some stream) offerSdp fetchResult).state.callState =
      CallState.calling ∧
    ∀ (s2 : WebRTCState) (m : WireMessage) (r : Option Nat),
      (sendSignalingMessage s2 m r).1 = s2 := by
  refine ⟨?_, ?_, ?_⟩
  · rw [startCall, if_neg (by simp [h])]
    cases hls : s.localStream <;> simp [getLocalStream, hls, sendSignalingMessage]
  · rw [startCall, if_neg (by simp [h])]
    cases hls : s.localStream <;> simp [getLocalStream, hls, sendSignalingMessage]
  · intro s2 m r
    cases hrd : s2.remoteDevice <;> simp [sendSignalingMessage, hrd]

/-- Witness for claim C8: the offer to an unreachable peer (network
failure, no response) leaves the session in calling with no error. -/
theorem send_failure_nonfatal_witness :
    (startCall initialWebRTCState deviceB (some ⟨[0]⟩) "sdpA" none).err =
      none ∧
    (startCall initialWebRTCState deviceB (some ⟨[0]⟩) "sdpA"
      none).state.callState = CallState.calling ∧
    ∀ (s2 : WebRTCState) (m : WireMessage) (r : Option Nat),
      (sendSignalingMessage s2 m r).1 = s2 :=
  send_failure_nonfatal initialWebRTCState deviceB ⟨[0]⟩ "sdpA" none rfl

end DSM
